import Mathlib

/-!
Verification of the pyignite key-value operation layer
(src/modules/platforms/python/pyignite/api/key_value.py).

Each operation wrapper in the source builds a Query (an opcode, an ordered
request schema of name/type pairs, and an optional query id), performs the
exchange over a connection with the bound parameter values and an optional
response field configuration, and projects the decoded response into an
APIResult.  The collaborators `cache_id`, the opcode constants and
`Query.perform` live outside src/ and are modelled from the spec where
needed; everything else below is translated directly from the source file.
-/

/-- Wire type descriptors imported by the source from pyignite.datatypes.
Only their identity matters to this layer: the schemas bind names to these
descriptors and the codec (out of scope) interprets them. -/
inductive TypeDesc where
  | Int
  | Byte
  | Bool
  | Long
  | Map
  | AnyDataObject
  | AnyDataArray
  | PeekModes
  deriving DecidableEq, Repr

/-- A request or response schema: an ordered list of field name / descriptor
pairs, exactly as the source writes them. -/
abbrev Schema := List (String × TypeDesc)

/-- Runtime values flowing through the layer.  Python is dynamically typed;
this covers the shapes the layer manipulates: the null object, integers,
booleans, strings, lists, and string-keyed dictionaries (the decoded
response field mapping is a dictionary). -/
inductive Value where
  | null
  | int (n : Int)
  | bool (b : Bool)
  | str (s : String)
  | list (vs : List Value)
  | dict (fs : List (String × Value))

/-- The cache argument of every operation: Union of str and int in the
source signatures. -/
inductive CacheKey where
  | name (s : String)
  | id (n : Int)

/-- Wrap an integer into signed 32-bit range, the wraparound arithmetic of
JVM int accumulation. -/
def toInt32 (n : Int) : Int := (n + 2 ^ 31) % 2 ^ 32 - 2 ^ 31

/-- UTF-16 code units of a character: one unit below 0x10000, otherwise a
surrogate pair. -/
def utf16Units (c : Char) : List Int :=
  let n := c.toNat
  if n < 65536 then [Int.ofNat n]
  else [Int.ofNat (55296 + (n - 65536) / 1024), Int.ofNat (56320 + (n - 65536) % 1024)]

/-- Modelled from the spec: the string hash used by `cache_id` (the function
pyignite.utils.hash_code, not under src/).  Section 4.1 of the spec: a
polynomial hash over UTF-16 code units, multiplier 31, accumulated with
wraparound 32-bit signed arithmetic, the JVM string hash. -/
def javaStringHash (s : String) : Int :=
  s.data.foldl (fun h c => (utf16Units c).foldl (fun h u => toInt32 (31 * h + u)) h) 0

/-- Modelled from the spec: `cache_id` (pyignite.utils, not under src/).
Section 4.1 of the spec: given an integer, return it unchanged (already an
identifier); given a string, hash it with the server string hash. -/
def cache_id : CacheKey → Int
  | .id n => n
  | .name s => javaStringHash s

/-- Modelled from the spec: opcode constants imported by the source from
pyignite.queries.op_codes (not under src/).  The claims depend only on each
operation being bound to its own integer constant. -/
def OP_CACHE_GET : Int := 1000
/-- Opcode constant, see OP_CACHE_GET. -/
def OP_CACHE_PUT : Int := 1001
/-- Opcode constant, see OP_CACHE_GET. -/
def OP_CACHE_PUT_IF_ABSENT : Int := 1002
/-- Opcode constant, see OP_CACHE_GET. -/
def OP_CACHE_GET_ALL : Int := 1003
/-- Opcode constant, see OP_CACHE_GET. -/
def OP_CACHE_PUT_ALL : Int := 1004
/-- Opcode constant, see OP_CACHE_GET. -/
def OP_CACHE_GET_AND_PUT : Int := 1005
/-- Opcode constant, see OP_CACHE_GET. -/
def OP_CACHE_GET_AND_REPLACE : Int := 1006
/-- Opcode constant, see OP_CACHE_GET. -/
def OP_CACHE_GET_AND_REMOVE : Int := 1007
/-- Opcode constant, see OP_CACHE_GET. -/
def OP_CACHE_GET_AND_PUT_IF_ABSENT : Int := 1008
/-- Opcode constant, see OP_CACHE_GET. -/
def OP_CACHE_REPLACE : Int := 1009
/-- Opcode constant, see OP_CACHE_GET. -/
def OP_CACHE_REPLACE_IF_EQUALS : Int := 1010
/-- Opcode constant, see OP_CACHE_GET. -/
def OP_CACHE_CONTAINS_KEY : Int := 1011
/-- Opcode constant, see OP_CACHE_GET. -/
def OP_CACHE_CONTAINS_KEYS : Int := 1012
/-- Opcode constant, see OP_CACHE_GET. -/
def OP_CACHE_CLEAR : Int := 1013
/-- Opcode constant, see OP_CACHE_GET. -/
def OP_CACHE_CLEAR_KEY : Int := 1014
/-- Opcode constant, see OP_CACHE_GET. -/
def OP_CACHE_CLEAR_KEYS : Int := 1015
/-- Opcode constant, see OP_CACHE_GET. -/
def OP_CACHE_REMOVE_KEY : Int := 1016
/-- Opcode constant, see OP_CACHE_GET. -/
def OP_CACHE_REMOVE_IF_EQUALS : Int := 1017
/-- Opcode constant, see OP_CACHE_GET. -/
def OP_CACHE_REMOVE_KEYS : Int := 1018
/-- Opcode constant, see OP_CACHE_GET. -/
def OP_CACHE_REMOVE_ALL : Int := 1019
/-- Opcode constant, see OP_CACHE_GET. -/
def OP_CACHE_GET_SIZE : Int := 1020

/-- The Query structure the source constructs for every operation: an
opcode, the ordered request schema (the list literal in the source), and
the optional caller-supplied query id. -/
structure Query where
  op_code : Int
  following : Schema
  query_id : Option Int

/-- The decoded outcome of one wire exchange, as the spec describes it:
status code (0 means success), optional error message, and the mapping
from response field name to decoded value. -/
structure RawResponse where
  status : Int
  error_message : Option String
  fields : List (String × Value)

/-- Modelled from the spec: the Connection collaborator is out of scope
(section 1); at this layer its only observable contribution to a call is
the RawResponse the exchange yields. -/
structure Connection where
  response : RawResponse

/-- The uniform result object every operation returns: status, query id,
projected payload (absent on failure or for payload-free operations), and
error message. -/
structure APIResult where
  status : Int
  query_id : Int
  value : Option Value
  error_message : Option String

/-- Everything an operation passes to Query.perform: the Query it built,
the bound parameter values in schema order, and the response field
configuration (empty when the operation has no response payload). -/
structure PerformCall where
  query : Query
  params : List (String × Value)
  response_config : Schema

/-- Modelled from the spec: Query.perform (pyignite.queries, not under
src/).  Sections 4.4 and 4.5: when the caller supplied no query id one is
generated (the generated value enters as the extra argument gen, since
random generation is impure); on nonzero status the error message is
decoded and no response fields are, so value stays unset; on status 0 the
response fields are decoded per the response configuration into a
dictionary which becomes the result value, or value stays unset when the
configuration is empty. -/
def performOf (call : PerformCall) (connection : Connection) (gen : Int) : APIResult :=
  let resp := connection.response
  let qid := call.query.query_id.getD gen
  if resp.status = 0 then
    ⟨resp.status, qid,
      if call.response_config.isEmpty then Option.none else some (Value.dict resp.fields),
      Option.none⟩
  else
    ⟨resp.status, qid, Option.none, resp.error_message⟩

/-- Python dictionary indexing d[k]: some value when the key is present in
a dictionary, none when the key is missing or the value is not a
dictionary (Python would raise KeyError or TypeError there). -/
def pyDictGet : Value → String → Option Value
  | .dict fs, k => List.lookup k fs
  | _, _ => Option.none

/-- The projection statement the source repeats, result.value =
result.value[name]: rebinds the result value to the named entry of the
decoded field dictionary; none models the exception Python would raise on
a missing key or a non-dictionary value. -/
def setValueFromField (result : APIResult) (name : String) : Option APIResult :=
  match result.value with
  | some v =>
    match pyDictGet v name with
    | some x => some ⟨result.status, result.query_id, some x, result.error_message⟩
    | Option.none => Option.none
  | Option.none => Option.none

/-- The hint resolution expression the source repeats: hint or
AnyDataObject. -/
def hintOr (h : Option TypeDesc) : TypeDesc := h.getD TypeDesc.AnyDataObject

/-- The flag parameter value the source repeats: 1 if binary else 0. -/
def flagOf (binary : Bool) : Int := if binary then 1 else 0

/-!
The 21 operation wrappers, translated one-to-one from the source.  Each
wrapper is split into a request-construction definition (the Query literal,
the bound parameter dictionary and the response configuration, exactly as
written in the source call to perform) and the wrapper itself, which runs
the exchange and projects the result the way the source does.
-/

/-- Request construction of cache_put, source lines 51-66. -/
def cache_put_request (cache : CacheKey) (key value : Value)
    (key_hint value_hint : Option TypeDesc) (binary : Bool)
    (query_id : Option Int) : PerformCall :=
  ⟨⟨OP_CACHE_PUT,
    [("hash_code", TypeDesc.Int), ("flag", TypeDesc.Byte),
     ("key", hintOr key_hint), ("value", hintOr value_hint)], query_id⟩,
   [("hash_code", Value.int (cache_id cache)),
    ("flag", Value.int (if binary then 1 else 0)),
    ("key", key), ("value", value)],
   []⟩

/-- cache_put: performs the exchange and returns the result directly. -/
def cache_put (connection : Connection) (cache : CacheKey) (key value : Value)
    (key_hint value_hint : Option TypeDesc) (binary : Bool)
    (query_id : Option Int) (gen : Int) : APIResult :=
  performOf (cache_put_request cache key value key_hint value_hint binary query_id)
    connection gen

/-- Request construction of cache_get, source lines 90-108. -/
def cache_get_request (cache : CacheKey) (key : Value)
    (key_hint : Option TypeDesc) (binary : Bool) (query_id : Option Int) : PerformCall :=
  ⟨⟨OP_CACHE_GET,
    [("hash_code", TypeDesc.Int), ("flag", TypeDesc.Byte),
     ("key", hintOr key_hint)], query_id⟩,
   [("hash_code", Value.int (cache_id cache)),
    ("flag", Value.int (if binary then 1 else 0)),
    ("key", key)],
   [("value", TypeDesc.AnyDataObject)]⟩

/-- cache_get: on nonzero status returns the result as is, otherwise
rebinds value to the decoded field named value (source lines 110-113). -/
def cache_get (connection : Connection) (cache : CacheKey) (key : Value)
    (key_hint : Option TypeDesc) (binary : Bool)
    (query_id : Option Int) (gen : Int) : Option APIResult :=
  let result := performOf (cache_get_request cache key key_hint binary query_id)
    connection gen
  if result.status ≠ 0 then some result
  else setValueFromField result "value"

/-- Request construction of cache_get_all, source lines 136-154. -/
def cache_get_all_request (cache : CacheKey) (keys : Value)
    (binary : Bool) (query_id : Option Int) : PerformCall :=
  ⟨⟨OP_CACHE_GET_ALL,
    [("hash_code", TypeDesc.Int), ("flag", TypeDesc.Byte),
     ("keys", TypeDesc.AnyDataArray)], query_id⟩,
   [("hash_code", Value.int (cache_id cache)),
    ("flag", Value.int (if binary then 1 else 0)),
    ("keys", keys)],
   [("data", TypeDesc.Map)]⟩

/-- cache_get_all: on status 0 rebinds value to the entry named data of the
decoded field dictionary (source lines 156-158; the Python dict() copy of a
dictionary is the identity). -/
def cache_get_all (connection : Connection) (cache : CacheKey) (keys : Value)
    (binary : Bool) (query_id : Option Int) (gen : Int) : Option APIResult :=
  let result := performOf (cache_get_all_request cache keys binary query_id)
    connection gen
  if result.status = 0 then setValueFromField result "data"
  else some result

/-- Request construction of cache_put_all, source lines 183-198. -/
def cache_put_all_request (cache : CacheKey) (pairs : Value)
    (binary : Bool) (query_id : Option Int) : PerformCall :=
  ⟨⟨OP_CACHE_PUT_ALL,
    [("hash_code", TypeDesc.Int), ("flag", TypeDesc.Byte),
     ("data", TypeDesc.Map)], query_id⟩,
   [("hash_code", Value.int (cache_id cache)),
    ("flag", Value.int (if binary then 1 else 0)),
    ("data", pairs)],
   []⟩

/-- cache_put_all: performs the exchange and returns the result directly. -/
def cache_put_all (connection : Connection) (cache : CacheKey) (pairs : Value)
    (binary : Bool) (query_id : Option Int) (gen : Int) : APIResult :=
  performOf (cache_put_all_request cache pairs binary query_id) connection gen

/-- Request construction of cache_contains_key, source lines 224-242. -/
def cache_contains_key_request (cache : CacheKey) (key : Value)
    (key_hint : Option TypeDesc) (binary : Bool) (query_id : Option Int) : PerformCall :=
  ⟨⟨OP_CACHE_CONTAINS_KEY,
    [("hash_code", TypeDesc.Int), ("flag", TypeDesc.Byte),
     ("key", hintOr key_hint)], query_id⟩,
   [("hash_code", Value.int (cache_id cache)),
    ("flag", Value.int (if binary then 1 else 0)),
    ("key", key)],
   [("value", TypeDesc.Bool)]⟩

/-- cache_contains_key: on status 0 rebinds value to the decoded field
named value (source lines 244-246). -/
def cache_contains_key (connection : Connection) (cache : CacheKey) (key : Value)
    (key_hint : Option TypeDesc) (binary : Bool)
    (query_id : Option Int) (gen : Int) : Option APIResult :=
  let result := performOf (cache_contains_key_request cache key key_hint binary query_id)
    connection gen
  if result.status = 0 then setValueFromField result "value"
  else some result

/-- Request construction of cache_contains_keys, source lines 269-287. -/
def cache_contains_keys_request (cache : CacheKey) (keys : Value)
    (binary : Bool) (query_id : Option Int) : PerformCall :=
  ⟨⟨OP_CACHE_CONTAINS_KEYS,
    [("hash_code", TypeDesc.Int), ("flag", TypeDesc.Byte),
     ("keys", TypeDesc.AnyDataArray)], query_id⟩,
   [("hash_code", Value.int (cache_id cache)),
    ("flag", Value.int (if binary then 1 else 0)),
    ("keys", keys)],
   [("value", TypeDesc.Bool)]⟩

/-- cache_contains_keys: on status 0 rebinds value to the decoded field
named value (source lines 289-291). -/
def cache_contains_keys (connection : Connection) (cache : CacheKey) (keys : Value)
    (binary : Bool) (query_id : Option Int) (gen : Int) : Option APIResult :=
  let result := performOf (cache_contains_keys_request cache keys binary query_id)
    connection gen
  if result.status = 0 then setValueFromField result "value"
  else some result

/-- Request construction of cache_get_and_put, source lines 320-341. -/
def cache_get_and_put_request (cache : CacheKey) (key value : Value)
    (key_hint value_hint : Option TypeDesc) (binary : Bool)
    (query_id : Option Int) : PerformCall :=
  ⟨⟨OP_CACHE_GET_AND_PUT,
    [("hash_code", TypeDesc.Int), ("flag", TypeDesc.Byte),
     ("key", hintOr key_hint), ("value", hintOr value_hint)], query_id⟩,
   [("hash_code", Value.int (cache_id cache)),
    ("flag", Value.int (if binary then 1 else 0)),
    ("key", key), ("value", value)],
   [("value", TypeDesc.AnyDataObject)]⟩

/-- cache_get_and_put: on status 0 rebinds value to the decoded field named
value (source lines 342-344). -/
def cache_get_and_put (connection : Connection) (cache : CacheKey) (key value : Value)
    (key_hint value_hint : Option TypeDesc) (binary : Bool)
    (query_id : Option Int) (gen : Int) : Option APIResult :=
  let result := performOf
    (cache_get_and_put_request cache key value key_hint value_hint binary query_id)
    connection gen
  if result.status = 0 then setValueFromField result "value"
  else some result

/-- Request construction of cache_get_and_replace, source lines 373-393. -/
def cache_get_and_replace_request (cache : CacheKey) (key value : Value)
    (key_hint value_hint : Option TypeDesc) (binary : Bool)
    (query_id : Option Int) : PerformCall :=
  ⟨⟨OP_CACHE_GET_AND_REPLACE,
    [("hash_code", TypeDesc.Int), ("flag", TypeDesc.Byte),
     ("key", hintOr key_hint), ("value", hintOr value_hint)], query_id⟩,
   [("hash_code", Value.int (cache_id cache)),
    ("flag", Value.int (if binary then 1 else 0)),
    ("key", key), ("value", value)],
   [("value", TypeDesc.AnyDataObject)]⟩

/-- cache_get_and_replace: on status 0 rebinds value to the decoded field
named value (source lines 394-396). -/
def cache_get_and_replace (connection : Connection) (cache : CacheKey) (key value : Value)
    (key_hint value_hint : Option TypeDesc) (binary : Bool)
    (query_id : Option Int) (gen : Int) : Option APIResult :=
  let result := performOf
    (cache_get_and_replace_request cache key value key_hint value_hint binary query_id)
    connection gen
  if result.status = 0 then setValueFromField result "value"
  else some result

/-- Request construction of cache_get_and_remove, source lines 420-438. -/
def cache_get_and_remove_request (cache : CacheKey) (key : Value)
    (key_hint : Option TypeDesc) (binary : Bool) (query_id : Option Int) : PerformCall :=
  ⟨⟨OP_CACHE_GET_AND_REMOVE,
    [("hash_code", TypeDesc.Int), ("flag", TypeDesc.Byte),
     ("key", hintOr key_hint)], query_id⟩,
   [("hash_code", Value.int (cache_id cache)),
    ("flag", Value.int (if binary then 1 else 0)),
    ("key", key)],
   [("value", TypeDesc.AnyDataObject)]⟩

/-- cache_get_and_remove: on status 0 rebinds value to the decoded field
named value (source lines 439-441). -/
def cache_get_and_remove (connection : Connection) (cache : CacheKey) (key : Value)
    (key_hint : Option TypeDesc) (binary : Bool)
    (query_id : Option Int) (gen : Int) : Option APIResult :=
  let result := performOf (cache_get_and_remove_request cache key key_hint binary query_id)
    connection gen
  if result.status = 0 then setValueFromField result "value"
  else some result

/-- Request construction of cache_put_if_absent, source lines 469-490. -/
def cache_put_if_absent_request (cache : CacheKey) (key value : Value)
    (key_hint value_hint : Option TypeDesc) (binary : Bool)
    (query_id : Option Int) : PerformCall :=
  ⟨⟨OP_CACHE_PUT_IF_ABSENT,
    [("hash_code", TypeDesc.Int), ("flag", TypeDesc.Byte),
     ("key", hintOr key_hint), ("value", hintOr value_hint)], query_id⟩,
   [("hash_code", Value.int (cache_id cache)),
    ("flag", Value.int (if binary then 1 else 0)),
    ("key", key), ("value", value)],
   [("success", TypeDesc.Bool)]⟩

/-- cache_put_if_absent: on status 0 rebinds value to the decoded field
named success (source lines 491-493). -/
def cache_put_if_absent (connection : Connection) (cache : CacheKey) (key value : Value)
    (key_hint value_hint : Option TypeDesc) (binary : Bool)
    (query_id : Option Int) (gen : Int) : Option APIResult :=
  let result := performOf
    (cache_put_if_absent_request cache key value key_hint value_hint binary query_id)
    connection gen
  if result.status = 0 then setValueFromField result "success"
  else some result

/-- Request construction of cache_get_and_put_if_absent, source lines
521-542. -/
def cache_get_and_put_if_absent_request (cache : CacheKey) (key value : Value)
    (key_hint value_hint : Option TypeDesc) (binary : Bool)
    (query_id : Option Int) : PerformCall :=
  ⟨⟨OP_CACHE_GET_AND_PUT_IF_ABSENT,
    [("hash_code", TypeDesc.Int), ("flag", TypeDesc.Byte),
     ("key", hintOr key_hint), ("value", hintOr value_hint)], query_id⟩,
   [("hash_code", Value.int (cache_id cache)),
    ("flag", Value.int (if binary then 1 else 0)),
    ("key", key), ("value", value)],
   [("value", TypeDesc.AnyDataObject)]⟩

/-- cache_get_and_put_if_absent: on status 0 rebinds value to the decoded
field named value (source lines 543-545). -/
def cache_get_and_put_if_absent (connection : Connection) (cache : CacheKey)
    (key value : Value) (key_hint value_hint : Option TypeDesc) (binary : Bool)
    (query_id : Option Int) (gen : Int) : Option APIResult :=
  let result := performOf
    (cache_get_and_put_if_absent_request cache key value key_hint value_hint binary query_id)
    connection gen
  if result.status = 0 then setValueFromField result "value"
  else some result

/-- Request construction of cache_replace, source lines 573-594. -/
def cache_replace_request (cache : CacheKey) (key value : Value)
    (key_hint value_hint : Option TypeDesc) (binary : Bool)
    (query_id : Option Int) : PerformCall :=
  ⟨⟨OP_CACHE_REPLACE,
    [("hash_code", TypeDesc.Int), ("flag", TypeDesc.Byte),
     ("key", hintOr key_hint), ("value", hintOr value_hint)], query_id⟩,
   [("hash_code", Value.int (cache_id cache)),
    ("flag", Value.int (if binary then 1 else 0)),
    ("key", key), ("value", value)],
   [("success", TypeDesc.Bool)]⟩

/-- cache_replace: on status 0 rebinds value to the decoded field named
success (source lines 595-597). -/
def cache_replace (connection : Connection) (cache : CacheKey) (key value : Value)
    (key_hint value_hint : Option TypeDesc) (binary : Bool)
    (query_id : Option Int) (gen : Int) : Option APIResult :=
  let result := performOf
    (cache_replace_request cache key value key_hint value_hint binary query_id)
    connection gen
  if result.status = 0 then setValueFromField result "success"
  else some result

/-- Request construction of cache_replace_if_equals, source lines 630-653. -/
def cache_replace_if_equals_request (cache : CacheKey) (key sample value : Value)
    (key_hint sample_hint value_hint : Option TypeDesc) (binary : Bool)
    (query_id : Option Int) : PerformCall :=
  ⟨⟨OP_CACHE_REPLACE_IF_EQUALS,
    [("hash_code", TypeDesc.Int), ("flag", TypeDesc.Byte),
     ("key", hintOr key_hint), ("sample", hintOr sample_hint),
     ("value", hintOr value_hint)], query_id⟩,
   [("hash_code", Value.int (cache_id cache)),
    ("flag", Value.int (if binary then 1 else 0)),
    ("key", key), ("sample", sample), ("value", value)],
   [("success", TypeDesc.Bool)]⟩

/-- cache_replace_if_equals: on status 0 rebinds value to the decoded field
named success (source lines 654-656). -/
def cache_replace_if_equals (connection : Connection) (cache : CacheKey)
    (key sample value : Value) (key_hint sample_hint value_hint : Option TypeDesc)
    (binary : Bool) (query_id : Option Int) (gen : Int) : Option APIResult :=
  let result := performOf
    (cache_replace_if_equals_request cache key sample value
      key_hint sample_hint value_hint binary query_id)
    connection gen
  if result.status = 0 then setValueFromField result "success"
  else some result

/-- Request construction of cache_clear, source lines 677-690. -/
def cache_clear_request (cache : CacheKey) (binary : Bool)
    (query_id : Option Int) : PerformCall :=
  ⟨⟨OP_CACHE_CLEAR,
    [("hash_code", TypeDesc.Int), ("flag", TypeDesc.Byte)], query_id⟩,
   [("hash_code", Value.int (cache_id cache)),
    ("flag", Value.int (if binary then 1 else 0))],
   []⟩

/-- cache_clear: performs the exchange and returns the result directly. -/
def cache_clear (connection : Connection) (cache : CacheKey) (binary : Bool)
    (query_id : Option Int) (gen : Int) : APIResult :=
  performOf (cache_clear_request cache binary query_id) connection gen

/-- Request construction of cache_clear_key, source lines 715-731. -/
def cache_clear_key_request (cache : CacheKey) (key : Value)
    (key_hint : Option TypeDesc) (binary : Bool) (query_id : Option Int) : PerformCall :=
  ⟨⟨OP_CACHE_CLEAR_KEY,
    [("hash_code", TypeDesc.Int), ("flag", TypeDesc.Byte),
     ("key", hintOr key_hint)], query_id⟩,
   [("hash_code", Value.int (cache_id cache)),
    ("flag", Value.int (if binary then 1 else 0)),
    ("key", key)],
   []⟩

/-- cache_clear_key: performs the exchange and returns the result directly. -/
def cache_clear_key (connection : Connection) (cache : CacheKey) (key : Value)
    (key_hint : Option TypeDesc) (binary : Bool)
    (query_id : Option Int) (gen : Int) : APIResult :=
  performOf (cache_clear_key_request cache key key_hint binary query_id) connection gen

/-- Request construction of cache_clear_keys, source lines 753-769. -/
def cache_clear_keys_request (cache : CacheKey) (keys : Value)
    (binary : Bool) (query_id : Option Int) : PerformCall :=
  ⟨⟨OP_CACHE_CLEAR_KEYS,
    [("hash_code", TypeDesc.Int), ("flag", TypeDesc.Byte),
     ("keys", TypeDesc.AnyDataArray)], query_id⟩,
   [("hash_code", Value.int (cache_id cache)),
    ("flag", Value.int (if binary then 1 else 0)),
    ("keys", keys)],
   []⟩

/-- cache_clear_keys: performs the exchange and returns the result
directly. -/
def cache_clear_keys (connection : Connection) (cache : CacheKey) (keys : Value)
    (binary : Bool) (query_id : Option Int) (gen : Int) : APIResult :=
  performOf (cache_clear_keys_request cache keys binary query_id) connection gen

/-- Request construction of cache_remove_key, source lines 794-813. -/
def cache_remove_key_request (cache : CacheKey) (key : Value)
    (key_hint : Option TypeDesc) (binary : Bool) (query_id : Option Int) : PerformCall :=
  ⟨⟨OP_CACHE_REMOVE_KEY,
    [("hash_code", TypeDesc.Int), ("flag", TypeDesc.Byte),
     ("key", hintOr key_hint)], query_id⟩,
   [("hash_code", Value.int (cache_id cache)),
    ("flag", Value.int (if binary then 1 else 0)),
    ("key", key)],
   [("success", TypeDesc.Bool)]⟩

/-- cache_remove_key: on status 0 rebinds value to the decoded field named
success (source lines 814-816). -/
def cache_remove_key (connection : Connection) (cache : CacheKey) (key : Value)
    (key_hint : Option TypeDesc) (binary : Bool)
    (query_id : Option Int) (gen : Int) : Option APIResult :=
  let result := performOf (cache_remove_key_request cache key key_hint binary query_id)
    connection gen
  if result.status = 0 then setValueFromField result "success"
  else some result

/-- Request construction of cache_remove_if_equals, source lines 846-867. -/
def cache_remove_if_equals_request (cache : CacheKey) (key sample : Value)
    (key_hint sample_hint : Option TypeDesc) (binary : Bool)
    (query_id : Option Int) : PerformCall :=
  ⟨⟨OP_CACHE_REMOVE_IF_EQUALS,
    [("hash_code", TypeDesc.Int), ("flag", TypeDesc.Byte),
     ("key", hintOr key_hint), ("sample", hintOr sample_hint)], query_id⟩,
   [("hash_code", Value.int (cache_id cache)),
    ("flag", Value.int (if binary then 1 else 0)),
    ("key", key), ("sample", sample)],
   [("success", TypeDesc.Bool)]⟩

/-- cache_remove_if_equals: on status 0 rebinds value to the decoded field
named success (source lines 868-870). -/
def cache_remove_if_equals (connection : Connection) (cache : CacheKey)
    (key sample : Value) (key_hint sample_hint : Option TypeDesc) (binary : Bool)
    (query_id : Option Int) (gen : Int) : Option APIResult :=
  let result := performOf
    (cache_remove_if_equals_request cache key sample key_hint sample_hint binary query_id)
    connection gen
  if result.status = 0 then setValueFromField result "success"
  else some result

/-- Request construction of cache_remove_keys, source lines 892-907. -/
def cache_remove_keys_request (cache : CacheKey) (keys : Value)
    (binary : Bool) (query_id : Option Int) : PerformCall :=
  ⟨⟨OP_CACHE_REMOVE_KEYS,
    [("hash_code", TypeDesc.Int), ("flag", TypeDesc.Byte),
     ("keys", TypeDesc.AnyDataArray)], query_id⟩,
   [("hash_code", Value.int (cache_id cache)),
    ("flag", Value.int (if binary then 1 else 0)),
    ("keys", keys)],
   []⟩

/-- cache_remove_keys: performs the exchange and returns the result
directly. -/
def cache_remove_keys (connection : Connection) (cache : CacheKey) (keys : Value)
    (binary : Bool) (query_id : Option Int) (gen : Int) : APIResult :=
  performOf (cache_remove_keys_request cache keys binary query_id) connection gen

/-- Request construction of cache_remove_all, source lines 929-942. -/
def cache_remove_all_request (cache : CacheKey) (binary : Bool)
    (query_id : Option Int) : PerformCall :=
  ⟨⟨OP_CACHE_REMOVE_ALL,
    [("hash_code", TypeDesc.Int), ("flag", TypeDesc.Byte)], query_id⟩,
   [("hash_code", Value.int (cache_id cache)),
    ("flag", Value.int (if binary then 1 else 0))],
   []⟩

/-- cache_remove_all: performs the exchange and returns the result
directly. -/
def cache_remove_all (connection : Connection) (cache : CacheKey) (binary : Bool)
    (query_id : Option Int) (gen : Int) : APIResult :=
  performOf (cache_remove_all_request cache binary query_id) connection gen

/-- The peek_modes argument of cache_get_size: a scalar or a sequence
(Python list and tuple are both modelled as the list constructor; the peek
mode constants are small integers). -/
inductive PeekModesArg where
  | scalar (n : Int)
  | list (ns : List Int)

/-- The peek_modes normalization of cache_get_size, source lines 967-971:
a non-sequence value of 0 becomes the empty list, any other non-sequence
value becomes a one-element list, a sequence passes through. -/
def normalizePeekModes : PeekModesArg → List Int
  | .list ns => ns
  | .scalar n => if n = 0 then [] else [n]

/-- Request construction of cache_get_size, source lines 967-991. -/
def cache_get_size_request (cache : CacheKey) (peek_modes : PeekModesArg)
    (binary : Bool) (query_id : Option Int) : PerformCall :=
  ⟨⟨OP_CACHE_GET_SIZE,
    [("hash_code", TypeDesc.Int), ("flag", TypeDesc.Byte),
     ("peek_modes", TypeDesc.PeekModes)], query_id⟩,
   [("hash_code", Value.int (cache_id cache)),
    ("flag", Value.int (if binary then 1 else 0)),
    ("peek_modes", Value.list ((normalizePeekModes peek_modes).map Value.int))],
   [("count", TypeDesc.Long)]⟩

/-- cache_get_size: on status 0 rebinds value to the decoded field named
count (source lines 993-995). -/
def cache_get_size (connection : Connection) (cache : CacheKey)
    (peek_modes : PeekModesArg) (binary : Bool)
    (query_id : Option Int) (gen : Int) : Option APIResult :=
  let result := performOf (cache_get_size_request cache peek_modes binary query_id)
    connection gen
  if result.status = 0 then setValueFromField result "count"
  else some result

/-- C1: the cache identifier hasher is deterministic (two invocations on
the same cache string yield the same identifier) and is the identity on
every int32 integer cache id. -/
theorem c1_cache_id_deterministic_and_int_identity :
    (∀ s : String, cache_id (CacheKey.name s) = cache_id (CacheKey.name s)) ∧
    (∀ n : Int, -(2 ^ 31) ≤ n → n < 2 ^ 31 → cache_id (CacheKey.id n) = n) :=
  ⟨fun _ => rfl, fun _ _ _ => rfl⟩

/-- C1 witness: the theorem applied at the concrete int32 input 42. -/
theorem c1_cache_id_witness :
    -(2 ^ 31) ≤ (42 : Int) ∧ (42 : Int) < 2 ^ 31 ∧ cache_id (CacheKey.id 42) = 42 :=
  ⟨by decide, by decide,
    c1_cache_id_deterministic_and_int_identity.2 42 (by decide) (by decide)⟩

/-- C2: every operation request schema begins with the field hash_code of
type Int followed by the field flag of type Byte, and the bound parameters
begin with hash_code holding cache_id of the cache argument followed by
flag holding 1 when binary is true and 0 otherwise, before any
operation-specific fields. -/
theorem c2_request_prefix_hash_code_flag :
    (∀ c k v kh vh b q,
      (cache_put_request c k v kh vh b q).query.following.take 2
        = [("hash_code", TypeDesc.Int), ("flag", TypeDesc.Byte)] ∧
      (cache_put_request c k v kh vh b q).params.take 2
        = [("hash_code", Value.int (cache_id c)),
           ("flag", Value.int (if b then 1 else 0))]) ∧
    (∀ c k kh b q,
      (cache_get_request c k kh b q).query.following.take 2
        = [("hash_code", TypeDesc.Int), ("flag", TypeDesc.Byte)] ∧
      (cache_get_request c k kh b q).params.take 2
        = [("hash_code", Value.int (cache_id c)),
           ("flag", Value.int (if b then 1 else 0))]) ∧
    (∀ c ks b q,
      (cache_get_all_request c ks b q).query.following.take 2
        = [("hash_code", TypeDesc.Int), ("flag", TypeDesc.Byte)] ∧
      (cache_get_all_request c ks b q).params.take 2
        = [("hash_code", Value.int (cache_id c)),
           ("flag", Value.int (if b then 1 else 0))]) ∧
    (∀ c ps b q,
      (cache_put_all_request c ps b q).query.following.take 2
        = [("hash_code", TypeDesc.Int), ("flag", TypeDesc.Byte)] ∧
      (cache_put_all_request c ps b q).params.take 2
        = [("hash_code", Value.int (cache_id c)),
           ("flag", Value.int (if b then 1 else 0))]) ∧
    (∀ c k kh b q,
      (cache_contains_key_request c k kh b q).query.following.take 2
        = [("hash_code", TypeDesc.Int), ("flag", TypeDesc.Byte)] ∧
      (cache_contains_key_request c k kh b q).params.take 2
        = [("hash_code", Value.int (cache_id c)),
           ("flag", Value.int (if b then 1 else 0))]) ∧
    (∀ c ks b q,
      (cache_contains_keys_request c ks b q).query.following.take 2
        = [("hash_code", TypeDesc.Int), ("flag", TypeDesc.Byte)] ∧
      (cache_contains_keys_request c ks b q).params.take 2
        = [("hash_code", Value.int (cache_id c)),
           ("flag", Value.int (if b then 1 else 0))]) ∧
    (∀ c k v kh vh b q,
      (cache_get_and_put_request c k v kh vh b q).query.following.take 2
        = [("hash_code", TypeDesc.Int), ("flag", TypeDesc.Byte)] ∧
      (cache_get_and_put_request c k v kh vh b q).params.take 2
        = [("hash_code", Value.int (cache_id c)),
           ("flag", Value.int (if b then 1 else 0))]) ∧
    (∀ c k v kh vh b q,
      (cache_get_and_replace_request c k v kh vh b q).query.following.take 2
        = [("hash_code", TypeDesc.Int), ("flag", TypeDesc.Byte)] ∧
      (cache_get_and_replace_request c k v kh vh b q).params.take 2
        = [("hash_code", Value.int (cache_id c)),
           ("flag", Value.int (if b then 1 else 0))]) ∧
    (∀ c k kh b q,
      (cache_get_and_remove_request c k kh b q).query.following.take 2
        = [("hash_code", TypeDesc.Int), ("flag", TypeDesc.Byte)] ∧
      (cache_get_and_remove_request c k kh b q).params.take 2
        = [("hash_code", Value.int (cache_id c)),
           ("flag", Value.int (if b then 1 else 0))]) ∧
    (∀ c k v kh vh b q,
      (cache_put_if_absent_request c k v kh vh b q).query.following.take 2
        = [("hash_code", TypeDesc.Int), ("flag", TypeDesc.Byte)] ∧
      (cache_put_if_absent_request c k v kh vh b q).params.take 2
        = [("hash_code", Value.int (cache_id c)),
           ("flag", Value.int (if b then 1 else 0))]) ∧
    (∀ c k v kh vh b q,
      (cache_get_and_put_if_absent_request c k v kh vh b q).query.following.take 2
        = [("hash_code", TypeDesc.Int), ("flag", TypeDesc.Byte)] ∧
      (cache_get_and_put_if_absent_request c k v kh vh b q).params.take 2
        = [("hash_code", Value.int (cache_id c)),
           ("flag", Value.int (if b then 1 else 0))]) ∧
    (∀ c k v kh vh b q,
      (cache_replace_request c k v kh vh b q).query.following.take 2
        = [("hash_code", TypeDesc.Int), ("flag", TypeDesc.Byte)] ∧
      (cache_replace_request c k v kh vh b q).params.take 2
        = [("hash_code", Value.int (cache_id c)),
           ("flag", Value.int (if b then 1 else 0))]) ∧
    (∀ c k s v kh sh vh b q,
      (cache_replace_if_equals_request c k s v kh sh vh b q).query.following.take 2
        = [("hash_code", TypeDesc.Int), ("flag", TypeDesc.Byte)] ∧
      (cache_replace_if_equals_request c k s v kh sh vh b q).params.take 2
        = [("hash_code", Value.int (cache_id c)),
           ("flag", Value.int (if b then 1 else 0))]) ∧
    (∀ c b q,
      (cache_clear_request c b q).query.following.take 2
        = [("hash_code", TypeDesc.Int), ("flag", TypeDesc.Byte)] ∧
      (cache_clear_request c b q).params.take 2
        = [("hash_code", Value.int (cache_id c)),
           ("flag", Value.int (if b then 1 else 0))]) ∧
    (∀ c k kh b q,
      (cache_clear_key_request c k kh b q).query.following.take 2
        = [("hash_code", TypeDesc.Int), ("flag", TypeDesc.Byte)] ∧
      (cache_clear_key_request c k kh b q).params.take 2
        = [("hash_code", Value.int (cache_id c)),
           ("flag", Value.int (if b then 1 else 0))]) ∧
    (∀ c ks b q,
      (cache_clear_keys_request c ks b q).query.following.take 2
        = [("hash_code", TypeDesc.Int), ("flag", TypeDesc.Byte)] ∧
      (cache_clear_keys_request c ks b q).params.take 2
        = [("hash_code", Value.int (cache_id c)),
           ("flag", Value.int (if b then 1 else 0))]) ∧
    (∀ c k kh b q,
      (cache_remove_key_request c k kh b q).query.following.take 2
        = [("hash_code", TypeDesc.Int), ("flag", TypeDesc.Byte)] ∧
      (cache_remove_key_request c k kh b q).params.take 2
        = [("hash_code", Value.int (cache_id c)),
           ("flag", Value.int (if b then 1 else 0))]) ∧
    (∀ c k s kh sh b q,
      (cache_remove_if_equals_request c k s kh sh b q).query.following.take 2
        = [("hash_code", TypeDesc.Int), ("flag", TypeDesc.Byte)] ∧
      (cache_remove_if_equals_request c k s kh sh b q).params.take 2
        = [("hash_code", Value.int (cache_id c)),
           ("flag", Value.int (if b then 1 else 0))]) ∧
    (∀ c ks b q,
      (cache_remove_keys_request c ks b q).query.following.take 2
        = [("hash_code", TypeDesc.Int), ("flag", TypeDesc.Byte)] ∧
      (cache_remove_keys_request c ks b q).params.take 2
        = [("hash_code", Value.int (cache_id c)),
           ("flag", Value.int (if b then 1 else 0))]) ∧
    (∀ c b q,
      (cache_remove_all_request c b q).query.following.take 2
        = [("hash_code", TypeDesc.Int), ("flag", TypeDesc.Byte)] ∧
      (cache_remove_all_request c b q).params.take 2
        = [("hash_code", Value.int (cache_id c)),
           ("flag", Value.int (if b then 1 else 0))]) ∧
    (∀ c pm b q,
      (cache_get_size_request c pm b q).query.following.take 2
        = [("hash_code", TypeDesc.Int), ("flag", TypeDesc.Byte)] ∧
      (cache_get_size_request c pm b q).params.take 2
        = [("hash_code", Value.int (cache_id c)),
           ("flag", Value.int (if b then 1 else 0))]) := by
  refine ⟨?_, ?_, ?_, ?_, ?_, ?_, ?_, ?_, ?_, ?_, ?_,
    ?_, ?_, ?_, ?_, ?_, ?_, ?_, ?_, ?_, ?_⟩
  all_goals (intros; exact ⟨rfl, rfl⟩)

theorem performOf_status (call : PerformCall) (conn : Connection) (gen : Int) :
    (performOf call conn gen).status = conn.response.status := by
  by_cases h : conn.response.status = 0 <;> simp [performOf, h]

theorem performOf_value_of_ne (call : PerformCall) (conn : Connection) (gen : Int)
    (h : conn.response.status ≠ 0) : (performOf call conn gen).value = Option.none := by
  unfold performOf
  simp [h]

theorem performOf_value_empty_config (call : PerformCall) (conn : Connection) (gen : Int)
    (h : call.response_config = []) : (performOf call conn gen).value = Option.none := by
  by_cases h0 : conn.response.status = 0 <;> simp [performOf, h, h0]

/-- C3: every operation that configures response fields passes a
nonzero-status exchange result through exactly as produced, and on such a
result value is never populated from response fields. -/
theorem c3_error_passthrough :
    (∀ cn c k kh b q g, cn.response.status ≠ 0 →
      cache_get cn c k kh b q g
        = some (performOf (cache_get_request c k kh b q) cn g) ∧
      (performOf (cache_get_request c k kh b q) cn g).value = Option.none) ∧
    (∀ cn c ks b q g, cn.response.status ≠ 0 →
      cache_get_all cn c ks b q g
        = some (performOf (cache_get_all_request c ks b q) cn g) ∧
      (performOf (cache_get_all_request c ks b q) cn g).value = Option.none) ∧
    (∀ cn c k kh b q g, cn.response.status ≠ 0 →
      cache_contains_key cn c k kh b q g
        = some (performOf (cache_contains_key_request c k kh b q) cn g) ∧
      (performOf (cache_contains_key_request c k kh b q) cn g).value = Option.none) ∧
    (∀ cn c ks b q g, cn.response.status ≠ 0 →
      cache_contains_keys cn c ks b q g
        = some (performOf (cache_contains_keys_request c ks b q) cn g) ∧
      (performOf (cache_contains_keys_request c ks b q) cn g).value = Option.none) ∧
    (∀ cn c k v kh vh b q g, cn.response.status ≠ 0 →
      cache_get_and_put cn c k v kh vh b q g
        = some (performOf (cache_get_and_put_request c k v kh vh b q) cn g) ∧
      (performOf (cache_get_and_put_request c k v kh vh b q) cn g).value = Option.none) ∧
    (∀ cn c k v kh vh b q g, cn.response.status ≠ 0 →
      cache_get_and_replace cn c k v kh vh b q g
        = some (performOf (cache_get_and_replace_request c k v kh vh b q) cn g) ∧
      (performOf (cache_get_and_replace_request c k v kh vh b q) cn g).value = Option.none) ∧
    (∀ cn c k kh b q g, cn.response.status ≠ 0 →
      cache_get_and_remove cn c k kh b q g
        = some (performOf (cache_get_and_remove_request c k kh b q) cn g) ∧
      (performOf (cache_get_and_remove_request c k kh b q) cn g).value = Option.none) ∧
    (∀ cn c k v kh vh b q g, cn.response.status ≠ 0 →
      cache_put_if_absent cn c k v kh vh b q g
        = some (performOf (cache_put_if_absent_request c k v kh vh b q) cn g) ∧
      (performOf (cache_put_if_absent_request c k v kh vh b q) cn g).value = Option.none) ∧
    (∀ cn c k v kh vh b q g, cn.response.status ≠ 0 →
      cache_get_and_put_if_absent cn c k v kh vh b q g
        = some (performOf (cache_get_and_put_if_absent_request c k v kh vh b q) cn g) ∧
      (performOf (cache_get_and_put_if_absent_request c k v kh vh b q) cn g).value
        = Option.none) ∧
    (∀ cn c k v kh vh b q g, cn.response.status ≠ 0 →
      cache_replace cn c k v kh vh b q g
        = some (performOf (cache_replace_request c k v kh vh b q) cn g) ∧
      (performOf (cache_replace_request c k v kh vh b q) cn g).value = Option.none) ∧
    (∀ cn c k s v kh sh vh b q g, cn.response.status ≠ 0 →
      cache_replace_if_equals cn c k s v kh sh vh b q g
        = some (performOf (cache_replace_if_equals_request c k s v kh sh vh b q) cn g) ∧
      (performOf (cache_replace_if_equals_request c k s v kh sh vh b q) cn g).value
        = Option.none) ∧
    (∀ cn c k kh b q g, cn.response.status ≠ 0 →
      cache_remove_key cn c k kh b q g
        = some (performOf (cache_remove_key_request c k kh b q) cn g) ∧
      (performOf (cache_remove_key_request c k kh b q) cn g).value = Option.none) ∧
    (∀ cn c k s kh sh b q g, cn.response.status ≠ 0 →
      cache_remove_if_equals cn c k s kh sh b q g
        = some (performOf (cache_remove_if_equals_request c k s kh sh b q) cn g) ∧
      (performOf (cache_remove_if_equals_request c k s kh sh b q) cn g).value
        = Option.none) ∧
    (∀ cn c pm b q g, cn.response.status ≠ 0 →
      cache_get_size cn c pm b q g
        = some (performOf (cache_get_size_request c pm b q) cn g) ∧
      (performOf (cache_get_size_request c pm b q) cn g).value = Option.none) := by
  refine ⟨?_, ?_, ?_, ?_, ?_, ?_, ?_, ?_, ?_, ?_, ?_, ?_, ?_, ?_⟩
  all_goals (
    intros
    rename_i h
    refine ⟨?_, performOf_value_of_ne _ _ _ h⟩
    simp [cache_get, cache_get_all, cache_contains_key, cache_contains_keys,
      cache_get_and_put, cache_get_and_replace, cache_get_and_remove,
      cache_put_if_absent, cache_get_and_put_if_absent, cache_replace,
      cache_replace_if_equals, cache_remove_key, cache_remove_if_equals,
      cache_get_size, performOf_status, h])

/-- C3 witness: the cache_get conjunct applied to a concrete status-1
response. -/
theorem c3_error_passthrough_witness :
    (Connection.mk ⟨1, some "boom", []⟩).response.status ≠ 0 ∧
    (cache_get ⟨⟨1, some "boom", []⟩⟩ (CacheKey.id 7) (Value.int 1)
        Option.none false Option.none 5
      = some (performOf
          (cache_get_request (CacheKey.id 7) (Value.int 1) Option.none false Option.none)
          ⟨⟨1, some "boom", []⟩⟩ 5) ∧
     (performOf
          (cache_get_request (CacheKey.id 7) (Value.int 1) Option.none false Option.none)
          ⟨⟨1, some "boom", []⟩⟩ 5).value = Option.none) :=
  ⟨by decide, c3_error_passthrough.1 ⟨⟨1, some "boom", []⟩⟩ (CacheKey.id 7)
    (Value.int 1) Option.none false Option.none 5 (by decide)⟩

/-- C4: for every operation whose response schema is a single scalar field
named value, success or count, a status-0 response whose decoded field
mapping binds that name to v projects to a result with status 0 and value
v; in particular cache_replace_if_equals with a true success field projects
to a true value and status 0. -/
theorem c4_scalar_field_unwrap :
    (∀ c k kh b q g em v,
      cache_get ⟨⟨0, em, [("value", v)]⟩⟩ c k kh b q g
        = some ⟨0, q.getD g, some v, Option.none⟩) ∧
    (∀ c k kh b q g em v,
      cache_contains_key ⟨⟨0, em, [("value", v)]⟩⟩ c k kh b q g
        = some ⟨0, q.getD g, some v, Option.none⟩) ∧
    (∀ c ks b q g em v,
      cache_contains_keys ⟨⟨0, em, [("value", v)]⟩⟩ c ks b q g
        = some ⟨0, q.getD g, some v, Option.none⟩) ∧
    (∀ c k v kh vh b q g em w,
      cache_get_and_put ⟨⟨0, em, [("value", w)]⟩⟩ c k v kh vh b q g
        = some ⟨0, q.getD g, some w, Option.none⟩) ∧
    (∀ c k v kh vh b q g em w,
      cache_get_and_replace ⟨⟨0, em, [("value", w)]⟩⟩ c k v kh vh b q g
        = some ⟨0, q.getD g, some w, Option.none⟩) ∧
    (∀ c k kh b q g em w,
      cache_get_and_remove ⟨⟨0, em, [("value", w)]⟩⟩ c k kh b q g
        = some ⟨0, q.getD g, some w, Option.none⟩) ∧
    (∀ c k v kh vh b q g em w,
      cache_put_if_absent ⟨⟨0, em, [("success", w)]⟩⟩ c k v kh vh b q g
        = some ⟨0, q.getD g, some w, Option.none⟩) ∧
    (∀ c k v kh vh b q g em w,
      cache_get_and_put_if_absent ⟨⟨0, em, [("value", w)]⟩⟩ c k v kh vh b q g
        = some ⟨0, q.getD g, some w, Option.none⟩) ∧
    (∀ c k v kh vh b q g em w,
      cache_replace ⟨⟨0, em, [("success", w)]⟩⟩ c k v kh vh b q g
        = some ⟨0, q.getD g, some w, Option.none⟩) ∧
    (∀ c k s v kh sh vh b q g em,
      cache_replace_if_equals ⟨⟨0, em, [("success", Value.bool true)]⟩⟩
          c k s v kh sh vh b q g
        = some ⟨0, q.getD g, some (Value.bool true), Option.none⟩) ∧
    (∀ c k kh b q g em w,
      cache_remove_key ⟨⟨0, em, [("success", w)]⟩⟩ c k kh b q g
        = some ⟨0, q.getD g, some w, Option.none⟩) ∧
    (∀ c k s kh sh b q g em w,
      cache_remove_if_equals ⟨⟨0, em, [("success", w)]⟩⟩ c k s kh sh b q g
        = some ⟨0, q.getD g, some w, Option.none⟩) ∧
    (∀ c pm b q g em w,
      cache_get_size ⟨⟨0, em, [("count", w)]⟩⟩ c pm b q g
        = some ⟨0, q.getD g, some w, Option.none⟩) := by
  refine ⟨?_, ?_, ?_, ?_, ?_, ?_, ?_, ?_, ?_, ?_, ?_, ?_, ?_⟩
  all_goals (intros; rfl)

/-- C5: cache_put, cache_put_all, cache_clear and cache_remove_all carry an
empty response configuration, return the exchange result directly, and the
returned value field is never populated: success is signaled by status 0
alone. -/
theorem c5_no_response_schema :
    (∀ cn c k v kh vh b q g,
      (cache_put_request c k v kh vh b q).response_config = [] ∧
      cache_put cn c k v kh vh b q g
        = performOf (cache_put_request c k v kh vh b q) cn g ∧
      (cache_put cn c k v kh vh b q g).value = Option.none) ∧
    (∀ cn c ps b q g,
      (cache_put_all_request c ps b q).response_config = [] ∧
      cache_put_all cn c ps b q g
        = performOf (cache_put_all_request c ps b q) cn g ∧
      (cache_put_all cn c ps b q g).value = Option.none) ∧
    (∀ cn c b q g,
      (cache_clear_request c b q).response_config = [] ∧
      cache_clear cn c b q g = performOf (cache_clear_request c b q) cn g ∧
      (cache_clear cn c b q g).value = Option.none) ∧
    (∀ cn c b q g,
      (cache_remove_all_request c b q).response_config = [] ∧
      cache_remove_all cn c b q g = performOf (cache_remove_all_request c b q) cn g ∧
      (cache_remove_all cn c b q g).value = Option.none) := by
  refine ⟨?_, ?_, ?_, ?_⟩
  all_goals (intros; exact ⟨rfl, rfl, performOf_value_empty_config _ _ _ rfl⟩)

/-- C6: in every operation that accepts a type hint, the descriptor bound
into the request schema for the hinted field is the supplied hint when one
is given and AnyDataObject when the hint is absent. -/
theorem c6_hint_resolution :
    (∀ c k v h kh vh b q,
      List.lookup "key"
        (cache_put_request c k v (some h) vh b q).query.following = some h ∧
      List.lookup "key"
        (cache_put_request c k v Option.none vh b q).query.following
          = some TypeDesc.AnyDataObject ∧
      List.lookup "value"
        (cache_put_request c k v kh (some h) b q).query.following = some h ∧
      List.lookup "value"
        (cache_put_request c k v kh Option.none b q).query.following
          = some TypeDesc.AnyDataObject) ∧
    (∀ c k h b q,
      List.lookup "key"
        (cache_get_request c k (some h) b q).query.following = some h ∧
      List.lookup "key"
        (cache_get_request c k Option.none b q).query.following
          = some TypeDesc.AnyDataObject) ∧
    (∀ c k h b q,
      List.lookup "key"
        (cache_contains_key_request c k (some h) b q).query.following = some h ∧
      List.lookup "key"
        (cache_contains_key_request c k Option.none b q).query.following
          = some TypeDesc.AnyDataObject) ∧
    (∀ c k v h kh vh b q,
      List.lookup "key"
        (cache_get_and_put_request c k v (some h) vh b q).query.following = some h ∧
      List.lookup "key"
        (cache_get_and_put_request c k v Option.none vh b q).query.following
          = some TypeDesc.AnyDataObject ∧
      List.lookup "value"
        (cache_get_and_put_request c k v kh (some h) b q).query.following = some h ∧
      List.lookup "value"
        (cache_get_and_put_request c k v kh Option.none b q).query.following
          = some TypeDesc.AnyDataObject) ∧
    (∀ c k v h kh vh b q,
      List.lookup "key"
        (cache_get_and_replace_request c k v (some h) vh b q).query.following = some h ∧
      List.lookup "key"
        (cache_get_and_replace_request c k v Option.none vh b q).query.following
          = some TypeDesc.AnyDataObject ∧
      List.lookup "value"
        (cache_get_and_replace_request c k v kh (some h) b q).query.following = some h ∧
      List.lookup "value"
        (cache_get_and_replace_request c k v kh Option.none b q).query.following
          = some TypeDesc.AnyDataObject) ∧
    (∀ c k h b q,
      List.lookup "key"
        (cache_get_and_remove_request c k (some h) b q).query.following = some h ∧
      List.lookup "key"
        (cache_get_and_remove_request c k Option.none b q).query.following
          = some TypeDesc.AnyDataObject) ∧
    (∀ c k v h kh vh b q,
      List.lookup "key"
        (cache_put_if_absent_request c k v (some h) vh b q).query.following = some h ∧
      List.lookup "key"
        (cache_put_if_absent_request c k v Option.none vh b q).query.following
          = some TypeDesc.AnyDataObject ∧
      List.lookup "value"
        (cache_put_if_absent_request c k v kh (some h) b q).query.following = some h ∧
      List.lookup "value"
        (cache_put_if_absent_request c k v kh Option.none b q).query.following
          = some TypeDesc.AnyDataObject) ∧
    (∀ c k v h kh vh b q,
      List.lookup "key"
        (cache_get_and_put_if_absent_request c k v (some h) vh b q).query.following
          = some h ∧
      List.lookup "key"
        (cache_get_and_put_if_absent_request c k v Option.none vh b q).query.following
          = some TypeDesc.AnyDataObject ∧
      List.lookup "value"
        (cache_get_and_put_if_absent_request c k v kh (some h) b q).query.following
          = some h ∧
      List.lookup "value"
        (cache_get_and_put_if_absent_request c k v kh Option.none b q).query.following
          = some TypeDesc.AnyDataObject) ∧
    (∀ c k v h kh vh b q,
      List.lookup "key"
        (cache_replace_request c k v (some h) vh b q).query.following = some h ∧
      List.lookup "key"
        (cache_replace_request c k v Option.none vh b q).query.following
          = some TypeDesc.AnyDataObject ∧
      List.lookup "value"
        (cache_replace_request c k v kh (some h) b q).query.following = some h ∧
      List.lookup "value"
        (cache_replace_request c k v kh Option.none b q).query.following
          = some TypeDesc.AnyDataObject) ∧
    (∀ c k s v h kh sh vh b q,
      List.lookup "key"
        (cache_replace_if_equals_request c k s v (some h) sh vh b q).query.following
          = some h ∧
      List.lookup "key"
        (cache_replace_if_equals_request c k s v Option.none sh vh b q).query.following
          = some TypeDesc.AnyDataObject ∧
      List.lookup "sample"
        (cache_replace_if_equals_request c k s v kh (some h) vh b q).query.following
          = some h ∧
      List.lookup "sample"
        (cache_replace_if_equals_request c k s v kh Option.none vh b q).query.following
          = some TypeDesc.AnyDataObject ∧
      List.lookup "value"
        (cache_replace_if_equals_request c k s v kh sh (some h) b q).query.following
          = some h ∧
      List.lookup "value"
        (cache_replace_if_equals_request c k s v kh sh Option.none b q).query.following
          = some TypeDesc.AnyDataObject) ∧
    (∀ c k h b q,
      List.lookup "key"
        (cache_clear_key_request c k (some h) b q).query.following = some h ∧
      List.lookup "key"
        (cache_clear_key_request c k Option.none b q).query.following
          = some TypeDesc.AnyDataObject) ∧
    (∀ c k h b q,
      List.lookup "key"
        (cache_remove_key_request c k (some h) b q).query.following = some h ∧
      List.lookup "key"
        (cache_remove_key_request c k Option.none b q).query.following
          = some TypeDesc.AnyDataObject) ∧
    (∀ c k s h kh sh b q,
      List.lookup "key"
        (cache_remove_if_equals_request c k s (some h) sh b q).query.following = some h ∧
      List.lookup "key"
        (cache_remove_if_equals_request c k s Option.none sh b q).query.following
          = some TypeDesc.AnyDataObject ∧
      List.lookup "sample"
        (cache_remove_if_equals_request c k s kh (some h) b q).query.following = some h ∧
      List.lookup "sample"
        (cache_remove_if_equals_request c k s kh Option.none b q).query.following
          = some TypeDesc.AnyDataObject) := by
  refine ⟨?_, ?_, ?_, ?_, ?_, ?_, ?_, ?_, ?_, ?_, ?_, ?_, ?_⟩
  all_goals (
    intros
    first
      | exact ⟨rfl, rfl⟩
      | exact ⟨rfl, rfl, rfl, rfl⟩
      | exact ⟨rfl, rfl, rfl, rfl, rfl, rfl⟩)

/-- C7: cache_get_all on a status-0 response whose decoded field mapping
binds data to the key-value mapping m returns a result whose value is m
itself, not wrapped further. -/
theorem c7_get_all_unwraps_data :
    ∀ c ks b q g em m,
      cache_get_all ⟨⟨0, em, [("data", m)]⟩⟩ c ks b q g
        = some ⟨0, q.getD g, some m, Option.none⟩ := by
  intros; rfl

/-- C8: cache_get_size normalizes peek_modes before encoding: a
non-sequence 0 becomes the empty list, any other non-sequence value n
becomes the one-element list holding n, and a sequence passes through
unchanged. -/
theorem c8_peek_modes_normalization :
    (∀ c b q,
      List.lookup "peek_modes" (cache_get_size_request c (PeekModesArg.scalar 0) b q).params
        = some (Value.list [])) ∧
    (∀ c b q n, n ≠ 0 →
      List.lookup "peek_modes" (cache_get_size_request c (PeekModesArg.scalar n) b q).params
        = some (Value.list [Value.int n])) ∧
    (∀ c b q ns,
      List.lookup "peek_modes" (cache_get_size_request c (PeekModesArg.list ns) b q).params
        = some (Value.list (ns.map Value.int))) := by
  refine ⟨fun c b q => rfl, ?_, fun c b q ns => rfl⟩
  intro c b q n h
  simp only [cache_get_size_request, normalizePeekModes]
  rw [if_neg h]
  rfl

/-- C8 witness: the nonzero scalar conjunct applied at 3. -/
theorem c8_peek_modes_witness :
    (3 : Int) ≠ 0 ∧
    List.lookup "peek_modes"
        (cache_get_size_request (CacheKey.id 1) (PeekModesArg.scalar 3) false
          Option.none).params
      = some (Value.list [Value.int 3]) :=
  ⟨by decide,
    c8_peek_modes_normalization.2.1 (CacheKey.id 1) false Option.none 3 (by decide)⟩

/-- C9: every operation is deterministic and stateless per call: each
operation is a function of its arguments and of the response the
connection yields alone, so two invocations with identical arguments
(including an explicitly supplied query id) that receive an identical
response return equal results, even when the impure query-id generator
would have produced different values. -/
theorem c9_deterministic_stateless :
    (∀ cn c k v kh vh b (qid : Int) g g2,
      cache_put cn c k v kh vh b (some qid) g
        = cache_put cn c k v kh vh b (some qid) g2) ∧
    (∀ cn c k kh b (qid : Int) g g2,
      cache_get cn c k kh b (some qid) g = cache_get cn c k kh b (some qid) g2) ∧
    (∀ cn c ks b (qid : Int) g g2,
      cache_get_all cn c ks b (some qid) g = cache_get_all cn c ks b (some qid) g2) ∧
    (∀ cn c ps b (qid : Int) g g2,
      cache_put_all cn c ps b (some qid) g = cache_put_all cn c ps b (some qid) g2) ∧
    (∀ cn c k kh b (qid : Int) g g2,
      cache_contains_key cn c k kh b (some qid) g
        = cache_contains_key cn c k kh b (some qid) g2) ∧
    (∀ cn c ks b (qid : Int) g g2,
      cache_contains_keys cn c ks b (some qid) g
        = cache_contains_keys cn c ks b (some qid) g2) ∧
    (∀ cn c k v kh vh b (qid : Int) g g2,
      cache_get_and_put cn c k v kh vh b (some qid) g
        = cache_get_and_put cn c k v kh vh b (some qid) g2) ∧
    (∀ cn c k v kh vh b (qid : Int) g g2,
      cache_get_and_replace cn c k v kh vh b (some qid) g
        = cache_get_and_replace cn c k v kh vh b (some qid) g2) ∧
    (∀ cn c k kh b (qid : Int) g g2,
      cache_get_and_remove cn c k kh b (some qid) g
        = cache_get_and_remove cn c k kh b (some qid) g2) ∧
    (∀ cn c k v kh vh b (qid : Int) g g2,
      cache_put_if_absent cn c k v kh vh b (some qid) g
        = cache_put_if_absent cn c k v kh vh b (some qid) g2) ∧
    (∀ cn c k v kh vh b (qid : Int) g g2,
      cache_get_and_put_if_absent cn c k v kh vh b (some qid) g
        = cache_get_and_put_if_absent cn c k v kh vh b (some qid) g2) ∧
    (∀ cn c k v kh vh b (qid : Int) g g2,
      cache_replace cn c k v kh vh b (some qid) g
        = cache_replace cn c k v kh vh b (some qid) g2) ∧
    (∀ cn c k s v kh sh vh b (qid : Int) g g2,
      cache_replace_if_equals cn c k s v kh sh vh b (some qid) g
        = cache_replace_if_equals cn c k s v kh sh vh b (some qid) g2) ∧
    (∀ cn c b (qid : Int) g g2,
      cache_clear cn c b (some qid) g = cache_clear cn c b (some qid) g2) ∧
    (∀ cn c k kh b (qid : Int) g g2,
      cache_clear_key cn c k kh b (some qid) g
        = cache_clear_key cn c k kh b (some qid) g2) ∧
    (∀ cn c ks b (qid : Int) g g2,
      cache_clear_keys cn c ks b (some qid) g
        = cache_clear_keys cn c ks b (some qid) g2) ∧
    (∀ cn c k kh b (qid : Int) g g2,
      cache_remove_key cn c k kh b (some qid) g
        = cache_remove_key cn c k kh b (some qid) g2) ∧
    (∀ cn c k s kh sh b (qid : Int) g g2,
      cache_remove_if_equals cn c k s kh sh b (some qid) g
        = cache_remove_if_equals cn c k s kh sh b (some qid) g2) ∧
    (∀ cn c ks b (qid : Int) g g2,
      cache_remove_keys cn c ks b (some qid) g
        = cache_remove_keys cn c ks b (some qid) g2) ∧
    (∀ cn c b (qid : Int) g g2,
      cache_remove_all cn c b (some qid) g = cache_remove_all cn c b (some qid) g2) ∧
    (∀ cn c pm b (qid : Int) g g2,
      cache_get_size cn c pm b (some qid) g = cache_get_size cn c pm b (some qid) g2) := by
  refine ⟨?_, ?_, ?_, ?_, ?_, ?_, ?_, ?_, ?_, ?_, ?_,
    ?_, ?_, ?_, ?_, ?_, ?_, ?_, ?_, ?_, ?_⟩
  all_goals (intros; rfl)

/-- C10: in the request schemas of the conditional operations the sample
field precedes the new value field: cache_replace_if_equals binds
hash_code, flag, key, sample, value in that order and
cache_remove_if_equals binds hash_code, flag, key, sample. -/
theorem c10_conditional_field_order :
    (∀ c k s v kh sh vh b q,
      (cache_replace_if_equals_request c k s v kh sh vh b q).query.following.map Prod.fst
        = ["hash_code", "flag", "key", "sample", "value"]) ∧
    (∀ c k s kh sh b q,
      (cache_remove_if_equals_request c k s kh sh b q).query.following.map Prod.fst
        = ["hash_code", "flag", "key", "sample"]) :=
  ⟨fun _ _ _ _ _ _ _ _ _ => rfl, fun _ _ _ _ _ _ _ => rfl⟩
